/-
Verification of the GAN training script (experiment_GAN/app.py).

The file shallowly embeds the script's orchestration layer:
  * dataset loading and normalization (`load_minst_data`),
  * optimizer construction (`get_optimizer`) and the single construction
    sequence performed by `train`,
  * per-batch label construction (`y_dis`) and batch concatenation,
  * the per-batch training step, its event trace, and the epoch loop with
    the visualization checkpoint,
  * the generator's forward pass (dense layers, LeakyReLU, final tanh).

Pixel values and labels are modelled as rationals; the generator's forward
pass is modelled over the reals so that the tanh range bound can be stated
exactly.  The external framework's optimizer-step semantics (which weight
sets a compiled model updates) is modelled by the `Compiled` record: a model
updates exactly the weight sets that were trainable when it was compiled.
-/
import Mathlib

namespace GanApp

/-! ### Dataset loading (`load_minst_data`, app.py lines 23-31) -/

/-- Normalization applied to every training pixel:
`(v - 127.5) / 127.5` (app.py line 27). -/
def normalizePixel (v : ℚ) : ℚ := (v - 127.5) / 127.5

/-- The raw dataset returned by `mnist.load_data()`: train/test image arrays
(each image a list of rows of pixel values) and the two label arrays. -/
structure RawMnist where
  x_train : List (List (List ℚ))
  y_train : List ℚ
  x_test : List (List (List ℚ))
  y_test : List ℚ

/-- The tuple returned by `load_minst_data`: the training images normalized
and flattened to length-784 vectors, the other three arrays untouched. -/
structure LoadedData where
  x_train : List (List ℚ)
  y_train : List ℚ
  x_test : List (List (List ℚ))
  y_test : List ℚ

/-- Embedding of `load_minst_data` (app.py lines 23-31): normalize `x_train` elementwise
with `normalizePixel`, then reshape each 28x28 image to a flat row of 784
entries (row-major, so reshape is per-image concatenation of rows); return
`y_train`, `x_test`, `y_test` unchanged. -/
def load_minst_data (raw : RawMnist) : LoadedData :=
  { x_train := raw.x_train.map (fun img => (img.map (fun row => row.map normalizePixel)).flatten)
    y_train := raw.y_train
    x_test := raw.x_test
    y_test := raw.y_test }

/-! ### Optimizer construction (`get_optimizer`, app.py lines 35-36) -/

/-- An Adam optimizer object.  `instanceId` models Python object identity:
every textual call of the constructor yields a fresh id. -/
structure AdamOpt where
  instanceId : ℕ
  lr : ℚ
  beta_1 : ℚ
  deriving DecidableEq

/-- Embedding of `get_optimizer` (app.py line 36): `Adam(lr=0.0002, beta_1=0.5)`.
`fresh` is the identity of the newly allocated object. -/
def get_optimizer (fresh : ℕ) : AdamOpt :=
  { instanceId := fresh, lr := 0.0002, beta_1 := 0.5 }

/-- The optimizer instances held by the three networks after the
construction sequence in `train` (app.py lines 113-116): `get_optimizer` is
called exactly once and the same object `adam` is passed to
`get_generator`, `get_discriminator` and `get_gan_network`. -/
structure OptSetup where
  generatorOpt : AdamOpt
  discriminatorOpt : AdamOpt
  ganOpt : AdamOpt
  deriving DecidableEq

/-- The construction sequence of `train` (app.py lines 113-116): one call
to `get_optimizer`, its result shared by all three `compile` calls. -/
def trainOptSetup : OptSetup :=
  let adam := get_optimizer 0
  { generatorOpt := adam, discriminatorOpt := adam, ganOpt := adam }

/-! ### Per-batch label construction and concatenation (app.py lines 127-132) -/

/-- Model of `np.zeros(n)`. -/
def npZeros (n : ℕ) : List ℚ := List.replicate n 0

/-- NumPy slice assignment `l[:n] = v`: overwrite the first `n` entries. -/
def sliceAssign : List ℚ → ℕ → ℚ → List ℚ
  | [], _, _ => []
  | x :: xs, 0, _ => x :: xs
  | _ :: xs, n + 1, v => v :: sliceAssign xs n v

/-- Discriminator labels (app.py lines 130-132):
`y_dis = np.zeros(2*batch_size); y_dis[:batch_size] = 0.9`. -/
def y_dis (batch_size : ℕ) : List ℚ :=
  sliceAssign (npZeros (2 * batch_size)) batch_size 0.9

/-- Generator-phase labels (app.py line 140): `np.ones(batch_size)`. -/
def y_gen (batch_size : ℕ) : List ℚ := List.replicate batch_size 1

/-- Concatenation `X = np.concatenate([image_batch, generated_images])`
(app.py line 127): real samples first. -/
def concatBatches (image_batch generated_images : List (List ℚ)) : List (List ℚ) :=
  image_batch ++ generated_images

/-! ### The per-batch step and the training loop (app.py lines 106-145)

Weights are abstract `List ℚ` tensors; the external framework's gradient
computation is abstracted into update functions `updG updD : List ℚ → List ℚ`
supplied as parameters.  A compiled model records which weight sets were
trainable when `compile` ran, because in the external framework the
`trainable` attribute is read at compile time: the discriminator was
compiled (app.py line 70) before any flag change, so its own model always
updates its weights; the composite model was compiled (app.py line 87)
right after `discriminator.trainable = False` (line 76), so it updates only
generator weights.  The in-loop flag writes (lines 135 and 141) are
recorded in the state and the event trace. -/

/-- Which weight sets a compiled model's `train_on_batch` updates. -/
structure Compiled where
  updatesGen : Bool
  updatesDisc : Bool
  deriving DecidableEq

/-- The discriminator model, compiled at app.py line 70 while its
`trainable` attribute still had its default value `True`. -/
def discCompiled : Compiled := { updatesGen := false, updatesDisc := true }

/-- The composite (gan) model, compiled at app.py line 87 after
`discriminator.trainable = False` at line 76 inside `get_gan_network`:
only the generator's weights are trainable in it. -/
def ganCompiled : Compiled := { updatesGen := true, updatesDisc := false }

/-- Mutable training state: the two parameter tensors, the discriminator's
`trainable` attribute, and the list of epochs whose image grid has been
written by `plot_generated_images`. -/
structure TrainState where
  genW : List ℚ
  discW : List ℚ
  discTrainable : Bool
  files : List ℕ
  deriving DecidableEq

/-- State after `get_gan_network` returned (app.py line 116): initial
weights in place, `discriminator.trainable` left `False` by line 76,
no image file written yet. -/
def initState (g0 d0 : List ℚ) : TrainState :=
  { genW := g0, discW := d0, discTrainable := false, files := [] }

/-- Assignment `discriminator.trainable = b` (app.py lines 135 and 141). -/
def setFlag (b : Bool) (s : TrainState) : TrainState :=
  { s with discTrainable := b }

/-- Effect of `train_on_batch` on a compiled model: apply the update functions to
exactly the weight sets that were trainable at compile time. -/
def trainOnBatch (m : Compiled) (updG updD : List ℚ → List ℚ) (s : TrainState) : TrainState :=
  { s with
    genW := if m.updatesGen then updG s.genW else s.genW
    discW := if m.updatesDisc then updD s.discW else s.discW }

/-- One per-batch step (app.py lines 121-142): set the flag true, train the
discriminator on the concatenated batch, set the flag false, train the
composite model on fresh noise. -/
def batchStep (updG updD : List ℚ → List ℚ) (s : TrainState) : TrainState :=
  let s1 := setFlag true s
  let s2 := trainOnBatch discCompiled updG updD s1
  let s3 := setFlag false s2
  trainOnBatch ganCompiled updG updD s3

/-- The discriminator-flag values observed through one per-batch step:
before the step, after each of the two assignments, after each of the two
optimizer calls (which leave the flag alone). -/
def batchFlagTrace (updG updD : List ℚ → List ℚ) (s : TrainState) : List Bool :=
  let s1 := setFlag true s
  let s2 := trainOnBatch discCompiled updG updD s1
  let s3 := setFlag false s2
  let s4 := trainOnBatch ganCompiled updG updD s3
  [s.discTrainable, s1.discTrainable, s2.discTrainable, s3.discTrainable, s4.discTrainable]

/-- Number of value changes along a sequence of flag readings. -/
def countToggles : List Bool → ℕ
  | a :: b :: t => (if a = b then 0 else 1) + countToggles (b :: t)
  | _ => 0

/-- One epoch of the loop body (app.py lines 118-145): `batch_count`
per-batch steps, then the checkpoint `if e == 1 or e % 20 == 0`
writing the image grid for epoch `e`. -/
def epochBody (updG updD : List ℚ → List ℚ) (e batch_count : ℕ) (s : TrainState) : TrainState :=
  let s1 := (batchStep updG updD)^[batch_count] s
  if e = 1 ∨ e % 20 = 0 then { s1 with files := s1.files ++ [e] } else s1

/-- The epoch loop `for e in range(1, epochs + 1)`: run epochs 1..n. -/
def runEpochs (updG updD : List ℚ → List ℚ) (batch_count : ℕ) (s : TrainState) : ℕ → TrainState
  | 0 => s
  | n + 1 => epochBody updG updD (n + 1) batch_count (runEpochs updG updD batch_count s n)

/-- Embedding of `train` (app.py lines 106-145): load the data, compute
`batch_count = int(x_train.shape[0] / batch_size)` (floor division for the
nonnegative sizes involved), and run the epoch loop from the
freshly constructed networks' state. -/
def train (raw : RawMnist) (updG updD : List ℚ → List ℚ) (g0 d0 : List ℚ)
    (epochs batch_size : ℕ) : TrainState :=
  let data := load_minst_data raw
  let batch_count := data.x_train.length / batch_size
  runEpochs updG updD batch_count (initState g0 d0) epochs

/-! ### Event trace of the loop -/

/-- Observable events of the training loop. -/
inductive Ev where
  | setTrainable (b : Bool)
  | trainDisc
  | trainGan
  | saveImage (epoch : ℕ)
  deriving DecidableEq

/-- Events of one per-batch step, in program order
(app.py lines 135, 136, 141, 142). -/
def batchEvents : List Ev :=
  [Ev.setTrainable true, Ev.trainDisc, Ev.setTrainable false, Ev.trainGan]

/-- Events of one epoch: `batch_count` per-batch steps, then the
conditional checkpoint (app.py lines 144-145). -/
def epochEvents (e batch_count : ℕ) : List Ev :=
  (List.replicate batch_count batchEvents).flatten ++
    (if e = 1 ∨ e % 20 = 0 then [Ev.saveImage e] else [])

/-- Events of a whole `train(epochs, ...)` call. -/
def trainEvents (epochs batch_count : ℕ) : List Ev :=
  ((List.range' 1 epochs).map (fun e => epochEvents e batch_count)).flatten

/-- Number of per-batch steps recorded in a trace: each step performs
exactly one `discriminator.train_on_batch` call. -/
def countBatchSteps : List Ev → ℕ
  | [] => 0
  | Ev.trainDisc :: t => countBatchSteps t + 1
  | _ :: t => countBatchSteps t

/-- Number of writes to the `trainable` attribute recorded in a trace. -/
def countFlagWrites : List Ev → ℕ
  | [] => 0
  | Ev.setTrainable _ :: t => countFlagWrites t + 1
  | _ :: t => countFlagWrites t

/-! ### The generator network (`get_generator`, app.py lines 39-52)

A `Sequential` of `Dense(256, input_dim=100)`, `LeakyReLU(0.2)`,
`Dense(512)`, `LeakyReLU(0.2)`, `Dense(1024)`, `LeakyReLU(0.2)`,
`Dense(784, activation=tanh)`.  The forward pass is modelled over ℝ,
weights as explicit matrices; `predict` maps the forward pass over the
rows of the input batch. -/

/-- Activation `LeakyReLU(alpha)`: identity on nonnegatives, slope `alpha` below 0. -/
noncomputable def leakyReLU (alpha x : ℝ) : ℝ := if 0 ≤ x then x else alpha * x

/-- A dense layer: `y i = (W x) i + b i`. -/
noncomputable def dense {m n : ℕ} (W : Fin m → Fin n → ℝ) (b : Fin m → ℝ)
    (x : Fin n → ℝ) : Fin m → ℝ :=
  fun i => (∑ j, W i j * x j) + b i

/-- The generator's parameters: four dense layers
100 → 256 → 512 → 1024 → 784. -/
structure GenWeights where
  W1 : Fin 256 → Fin 100 → ℝ
  b1 : Fin 256 → ℝ
  W2 : Fin 512 → Fin 256 → ℝ
  b2 : Fin 512 → ℝ
  W3 : Fin 1024 → Fin 512 → ℝ
  b3 : Fin 1024 → ℝ
  W4 : Fin 784 → Fin 1024 → ℝ
  b4 : Fin 784 → ℝ

/-- Forward pass of the generator on a single noise vector: three hidden
dense layers of widths 256, 512, 1024, each followed by `LeakyReLU(0.2)`,
then `Dense(784, activation=tanh)`. -/
noncomputable def generatorForward (w : GenWeights) (noise : Fin 100 → ℝ) : Fin 784 → ℝ :=
  let h1 := fun i => leakyReLU 0.2 (dense w.W1 w.b1 noise i)
  let h2 := fun i => leakyReLU 0.2 (dense w.W2 w.b2 h1 i)
  let h3 := fun i => leakyReLU 0.2 (dense w.W3 w.b3 h2 i)
  fun i => Real.tanh (dense w.W4 w.b4 h3 i)

/-- Embedding of `generator.predict(noise)` on a batch of `B` noise rows: the forward
pass applied to each row, giving a `(B, 784)` batch. -/
noncomputable def generatorPredict (B : ℕ) (w : GenWeights)
    (noise : Fin B → Fin 100 → ℝ) : Fin B → Fin 784 → ℝ :=
  fun r => generatorForward w (noise r)

/-! ### Helper lemmas -/

theorem sliceAssign_zero (l : List ℚ) (v : ℚ) : sliceAssign l 0 v = l := by
  cases l <;> rfl

theorem sliceAssign_replicate_zero (v : ℚ) :
    ∀ n m : ℕ, sliceAssign (List.replicate (n + m) 0) n v =
      List.replicate n v ++ List.replicate m 0 := by
  intro n
  induction n with
  | zero => intro m; rw [Nat.zero_add, sliceAssign_zero]; rfl
  | succ k ih =>
    intro m
    rw [Nat.succ_add, List.replicate_succ]
    show v :: sliceAssign (List.replicate (k + m) 0) k v = _
    rw [ih m, List.replicate_succ]
    rfl

/-- The net effect of the label construction: `batch_size` copies of 0.9
followed by `batch_size` zeros. -/
theorem y_dis_eq (bs : ℕ) :
    y_dis bs = List.replicate bs 0.9 ++ List.replicate bs 0 := by
  unfold y_dis npZeros
  rw [Nat.two_mul, sliceAssign_replicate_zero]

/-! ### Claims -/

/-- Claim C1, counterexample.  The claim says the Generator, the
Discriminator and the Composite network each get *their own* optimizer
instance.  In the code `get_optimizer()` is called once (app.py line 113)
and the single resulting object is passed to all three constructors, so the
three held instances are not pairwise distinct. -/
theorem C1_own_optimizer_counterexample :
    ¬ (trainOptSetup.generatorOpt.instanceId ≠ trainOptSetup.discriminatorOpt.instanceId ∧
       trainOptSetup.discriminatorOpt.instanceId ≠ trainOptSetup.ganOpt.instanceId ∧
       trainOptSetup.generatorOpt.instanceId ≠ trainOptSetup.ganOpt.instanceId) := by
  decide

/-- Claim C1, amended.  At training initialization the Generator, the
Discriminator and the Composite network are all constructed with one
shared optimizer instance, whose hyperparameters are learning rate 0.0002
and first-moment decay 0.5. -/
theorem C1_shared_optimizer :
    trainOptSetup.generatorOpt = trainOptSetup.discriminatorOpt ∧
    trainOptSetup.discriminatorOpt = trainOptSetup.ganOpt ∧
    trainOptSetup.generatorOpt.lr = 0.0002 ∧
    trainOptSetup.generatorOpt.beta_1 = 0.5 :=
  ⟨rfl, rfl, rfl, rfl⟩

/-- Claim C2.  Per-batch discriminator data: the concatenated batch has the
real samples first and the generated ones after them; the label vector has
length `2 * batch_size`, its first `batch_size` entries are exactly 0.9 and
the remaining `batch_size` entries are exactly 0. -/
theorem C2_labels_and_concat (bs : ℕ) (image_batch generated_images : List (List ℚ)) :
    (concatBatches image_batch generated_images).take image_batch.length = image_batch ∧
    (concatBatches image_batch generated_images).drop image_batch.length = generated_images ∧
    (y_dis bs).length = 2 * bs ∧
    (∀ i, i < bs → (y_dis bs).getD i 0 = 0.9) ∧
    (∀ i, bs ≤ i → i < 2 * bs → (y_dis bs).getD i 1 = 0) := by
  refine ⟨List.take_left _ _, List.drop_left _ _, ?_, ?_, ?_⟩
  · rw [y_dis_eq]
    simp [Nat.two_mul]
  · intro i hi
    rw [y_dis_eq]
    rw [List.getD_eq_getElem?_getD, List.getElem?_append_left (by simpa using hi)]
    simp [hi]
  · intro i hbs hi
    rw [y_dis_eq]
    rw [List.getD_eq_getElem?_getD, List.getElem?_append_right (by simpa using hbs)]
    have : i - bs < bs := by omega
    simp [this]

/-- Claim C2, witness, at `batch_size = 128`: length 256, entry 0 equals 0.9,
entry 127 equals 0.9, entry 128 equals 0, entry 255 equals 0. -/
theorem C2_labels_witness :
    (0 : ℕ) < 128 ∧ (127 : ℕ) < 128 ∧ (128 : ℕ) ≤ 128 ∧ (128 : ℕ) < 256 ∧
    (255 : ℕ) ≥ 128 ∧ (255 : ℕ) < 256 ∧
    (y_dis 128).length = 2 * 128 ∧
    (y_dis 128).getD 0 0 = 0.9 ∧ (y_dis 128).getD 127 0 = 0.9 ∧
    (y_dis 128).getD 128 1 = 0 ∧ (y_dis 128).getD 255 1 = 0 :=
  ⟨by decide, by decide, by decide, by decide, by decide, by decide,
   (C2_labels_and_concat 128 [] []).2.2.1,
   (C2_labels_and_concat 128 [] []).2.2.2.1 0 (by decide),
   (C2_labels_and_concat 128 [] []).2.2.2.1 127 (by decide),
   (C2_labels_and_concat 128 [] []).2.2.2.2 128 (by decide) (by decide),
   (C2_labels_and_concat 128 [] []).2.2.2.2 255 (by decide) (by decide)⟩

/-- Claim C9.  `train` with `epochs = 0`: the epoch loop body never runs, so
the final state equals the initial state (no parameter is mutated, no image
file is written), the event trace is empty, and in particular it records no
batch step. -/
theorem C9_zero_epochs (raw : RawMnist) (updG updD : List ℚ → List ℚ)
    (g0 d0 : List ℚ) (bs bc : ℕ) :
    train raw updG updD g0 d0 0 bs = initState g0 d0 ∧
    (train raw updG updD g0 d0 0 bs).genW = g0 ∧
    (train raw updG updD g0 d0 0 bs).discW = d0 ∧
    (train raw updG updD g0 d0 0 bs).files = [] ∧
    trainEvents 0 bc = [] ∧
    countBatchSteps (trainEvents 0 bc) = 0 :=
  ⟨rfl, rfl, rfl, rfl, rfl, rfl⟩

theorem batchStep_files (updG updD : List ℚ → List ℚ) (s : TrainState) :
    (batchStep updG updD s).files = s.files := rfl

theorem iterate_batchStep_files (updG updD : List ℚ → List ℚ) :
    ∀ (k : ℕ) (s : TrainState), ((batchStep updG updD)^[k] s).files = s.files := by
  intro k
  induction k with
  | zero => intro s; rfl
  | succ n ih =>
    intro s
    rw [Function.iterate_succ_apply, ih, batchStep_files]

theorem epochBody_files (updG updD : List ℚ → List ℚ) (e bc : ℕ) (s : TrainState) :
    (epochBody updG updD e bc s).files =
      s.files ++ (if e = 1 ∨ e % 20 = 0 then [e] else []) := by
  unfold epochBody
  by_cases h : e = 1 ∨ e % 20 = 0
  · simp [h, iterate_batchStep_files]
  · simp [h, iterate_batchStep_files]

theorem runEpochs_files (updG updD : List ℚ → List ℚ) (bc : ℕ) (s : TrainState) :
    ∀ N : ℕ, (runEpochs updG updD bc s N).files =
      s.files ++ (List.range' 1 N).filter (fun e => e = 1 ∨ e % 20 = 0) := by
  intro N
  induction N with
  | zero => simp [runEpochs]
  | succ n ih =>
    have hsing : List.filter (fun e => decide (e = 1 ∨ e % 20 = 0)) [1 + n] =
        if n + 1 = 1 ∨ (n + 1) % 20 = 0 then [n + 1] else [] := by
      rw [Nat.add_comm 1 n]
      by_cases h : n + 1 = 1 ∨ (n + 1) % 20 = 0
      · simp [List.filter_singleton, h]
      · simp [List.filter_singleton, h]
    show (epochBody updG updD (n + 1) bc (runEpochs updG updD bc s n)).files = _
    rw [epochBody_files, ih, List.range'_1_concat, List.filter_append, List.append_assoc,
      hsing]

/-- Claim C3.  The Visualization Sink fires exactly at epoch 1 and at the
epochs in range that are multiples of 20, and at no other epoch; for a
45-epoch run the written files are exactly those of epochs 1, 20, 40. -/
theorem C3_checkpoint_schedule (updG updD : List ℚ → List ℚ) (g0 d0 : List ℚ)
    (bc N e : ℕ) :
    (e ∈ (runEpochs updG updD bc (initState g0 d0) N).files ↔
      1 ≤ e ∧ e ≤ N ∧ (e = 1 ∨ e % 20 = 0)) ∧
    (runEpochs updG updD bc (initState g0 d0) 45).files = [1, 20, 40] := by
  constructor
  · rw [runEpochs_files]
    simp only [initState, List.nil_append, List.mem_filter, List.mem_range',
      decide_eq_true_eq]
    constructor
    · rintro ⟨⟨i, hi, rfl⟩, hp⟩
      exact ⟨by omega, by omega, hp⟩
    · rintro ⟨h1, hN, hp⟩
      exact ⟨⟨e - 1, by omega, by omega⟩, hp⟩
  · rw [runEpochs_files]
    simp only [initState, List.nil_append]
    decide

theorem countBatchSteps_append (l l' : List Ev) :
    countBatchSteps (l ++ l') = countBatchSteps l + countBatchSteps l' := by
  induction l with
  | nil => simp [countBatchSteps]
  | cons a t ih =>
    cases a with
    | setTrainable b => simp [countBatchSteps, ih]
    | trainDisc => simp [countBatchSteps, ih]; omega
    | trainGan => simp [countBatchSteps, ih]
    | saveImage e => simp [countBatchSteps, ih]

theorem countBatchSteps_flatten_replicate :
    ∀ m : ℕ, countBatchSteps ((List.replicate m batchEvents).flatten) = m := by
  intro m
  induction m with
  | zero => rfl
  | succ n ih =>
    rw [List.replicate_succ, List.flatten_cons, countBatchSteps_append, ih]
    show 1 + n = n + 1
    omega

theorem countBatchSteps_epochEvents (e k : ℕ) :
    countBatchSteps (epochEvents e k) = k := by
  unfold epochEvents
  rw [countBatchSteps_append, countBatchSteps_flatten_replicate]
  by_cases h : e = 1 ∨ e % 20 = 0
  · simp [h, countBatchSteps]
  · simp [h, countBatchSteps]

/-- Claim C6.  Every epoch performs exactly `batch_count` per-batch steps,
with `batch_count = ⌊dataset_size / batch_size⌋`; for the default run
(60000 samples, batch size 128) that is 468 steps per epoch. -/
theorem C6_steps_per_epoch (ds bs e : ℕ) (_hbs : 0 < bs) :
    countBatchSteps (epochEvents e (ds / bs)) = ds / bs ∧
    countBatchSteps (epochEvents e (60000 / 128)) = 468 := by
  refine ⟨countBatchSteps_epochEvents e (ds / bs), ?_⟩
  rw [countBatchSteps_epochEvents]

/-- Claim C6, witness, at the default run: batch size 128 is positive and the
per-epoch step count is 468. -/
theorem C6_steps_witness :
    (0 : ℕ) < 128 ∧ countBatchSteps (epochEvents 1 (60000 / 128)) = 468 :=
  ⟨by decide, (C6_steps_per_epoch 60000 128 1 (by decide)).2⟩

/-- Claim C5.  The discriminator's `trainable` flag is written true
immediately before the discriminator optimizer step and false immediately
before the composite optimizer step; starting from the loop invariant
(flag false between iterations) the flag changes value exactly twice per
batch iteration; and at each of the two optimizer calls the non-updated
network's parameters are held fixed. -/
theorem C5_trainable_toggle (updG updD : List ℚ → List ℚ) (s : TrainState)
    (h0 : s.discTrainable = false) :
    (setFlag true s).discTrainable = true ∧
    (setFlag false (trainOnBatch discCompiled updG updD (setFlag true s))).discTrainable
      = false ∧
    countFlagWrites batchEvents = 2 ∧
    countToggles (batchFlagTrace updG updD s) = 2 ∧
    (∀ t : TrainState, (trainOnBatch discCompiled updG updD t).genW = t.genW) ∧
    (∀ t : TrainState, (trainOnBatch ganCompiled updG updD t).discW = t.discW) := by
  refine ⟨rfl, rfl, rfl, ?_, fun t => rfl, fun t => rfl⟩
  have htrace : batchFlagTrace updG updD s = [false, true, true, false, false] := by
    simp [batchFlagTrace, setFlag, trainOnBatch, h0]
  rw [htrace]
  rfl

/-- Claim C5, witness,: from the post-construction state the per-batch flag
trace shows exactly two toggles. -/
theorem C5_toggle_witness :
    (initState [] []).discTrainable = false ∧
    countToggles (batchFlagTrace id id (initState [] [])) = 2 :=
  ⟨rfl, (C5_trainable_toggle id id (initState [] []) rfl).2.2.2.1⟩

/-- Claim C4.  Frame effect of the two optimizer calls: a composite-network
step (flag false) leaves every discriminator parameter bit-identical and
changes the generator parameters (whenever the framework's update actually
moves them); a discriminator step (flag true) changes the discriminator
parameters and leaves the generator parameters untouched. -/
theorem C4_optimizer_step_frame (updG updD : List ℚ → List ℚ) (s : TrainState)
    (hG : updG s.genW ≠ s.genW) (hD : updD s.discW ≠ s.discW) :
    (trainOnBatch ganCompiled updG updD (setFlag false s)).discW = s.discW ∧
    (trainOnBatch ganCompiled updG updD (setFlag false s)).genW ≠ s.genW ∧
    (trainOnBatch discCompiled updG updD (setFlag true s)).discW ≠ s.discW ∧
    (trainOnBatch discCompiled updG updD (setFlag true s)).genW = s.genW := by
  refine ⟨rfl, ?_, ?_, rfl⟩
  · simpa [trainOnBatch, ganCompiled, setFlag] using hG
  · simpa [trainOnBatch, discCompiled, setFlag] using hD

/-- Claim C4, witness, with prepend updates on the post-construction state:
both effective-update hypotheses hold and the discriminator parameters are
bit-identical after the composite step. -/
theorem C4_frame_witness :
    ((fun l => (1 : ℚ) :: l) (initState [] []).genW ≠ (initState [] []).genW) ∧
    ((fun l => (2 : ℚ) :: l) (initState [] []).discW ≠ (initState [] []).discW) ∧
    (trainOnBatch ganCompiled (fun l => (1 : ℚ) :: l) (fun l => (2 : ℚ) :: l)
        (setFlag false (initState [] []))).discW = (initState [] []).discW :=
  ⟨by decide, by decide,
   (C4_optimizer_step_frame (fun l => (1 : ℚ) :: l) (fun l => (2 : ℚ) :: l)
      (initState [] []) (by decide) (by decide)).1⟩

/-- Claim C10.  `load_minst_data` transforms only the training images: the
test images and both label arrays are returned exactly as they came from
the provider, so `x_test` keeps its raw 8-bit values and its original
shape, and neither label array is transformed. -/
theorem C10_test_split_untouched (raw : RawMnist) :
    (load_minst_data raw).x_test = raw.x_test ∧
    (load_minst_data raw).y_train = raw.y_train ∧
    (load_minst_data raw).y_test = raw.y_test :=
  ⟨rfl, rfl, rfl⟩

theorem normalizePixel_bounds (v : ℚ) (h0 : 0 ≤ v) (h255 : v ≤ 255) :
    -1 ≤ normalizePixel v ∧ normalizePixel v ≤ 1 := by
  unfold normalizePixel
  constructor
  · rw [le_div_iff₀ (by norm_num : (0 : ℚ) < 127.5)]
    linarith
  · rw [div_le_one (by norm_num : (0 : ℚ) < 127.5)]
    linarith

/-- Claim C7.  Dataset normalization: provided the raw training images are
28x28 with 8-bit pixel values in [0, 255], every loaded training Sample is
a flat vector of length 784 all of whose components lie in [-1, 1]. -/
theorem C7_sample_normalization (raw : RawMnist)
    (hshape : ∀ img ∈ raw.x_train, img.length = 28 ∧ ∀ row ∈ img, row.length = 28)
    (hrange : ∀ img ∈ raw.x_train, ∀ row ∈ img, ∀ v ∈ row, 0 ≤ v ∧ v ≤ 255) :
    ∀ s ∈ (load_minst_data raw).x_train,
      s.length = 784 ∧ ∀ v ∈ s, -1 ≤ v ∧ v ≤ 1 := by
  intro s hs
  simp only [load_minst_data, List.mem_map] at hs
  obtain ⟨img, himg, rfl⟩ := hs
  obtain ⟨hlen, hrows⟩ := hshape img himg
  constructor
  · rw [List.length_flatten, List.map_map]
    have hmap : img.map (List.length ∘ fun row => row.map normalizePixel) =
        List.replicate 28 28 := by
      rw [List.eq_replicate_iff]
      refine ⟨by simpa using hlen, ?_⟩
      intro b hb
      simp only [List.mem_map, Function.comp] at hb
      obtain ⟨row, hrow, rfl⟩ := hb
      simpa using hrows row hrow
    rw [hmap]
    simp
  · intro v hv
    rw [List.mem_flatten] at hv
    obtain ⟨l, hl, hvl⟩ := hv
    simp only [List.mem_map] at hl
    obtain ⟨row, hrow, rfl⟩ := hl
    simp only [List.mem_map] at hvl
    obtain ⟨u, hu, rfl⟩ := hvl
    obtain ⟨hu0, hu255⟩ := hrange img himg row hrow u hu
    exact normalizePixel_bounds u hu0 hu255

/-- A one-image raw dataset with all pixels 0, used to instantiate C7. -/
def sampleRaw : RawMnist :=
  { x_train := [List.replicate 28 (List.replicate 28 0)]
    y_train := []
    x_test := []
    y_test := [] }

/-- Claim C7, witness, on a concrete all-zero 28x28 image. -/
theorem C7_sample_witness :
    (∀ img ∈ sampleRaw.x_train, img.length = 28 ∧ ∀ row ∈ img, row.length = 28) ∧
    (∀ img ∈ sampleRaw.x_train, ∀ row ∈ img, ∀ v ∈ row, 0 ≤ v ∧ v ≤ 255) ∧
    (∀ s ∈ (load_minst_data sampleRaw).x_train,
      s.length = 784 ∧ ∀ v ∈ s, -1 ≤ v ∧ v ≤ 1) :=
  ⟨by decide, by decide, C7_sample_normalization sampleRaw (by decide) (by decide)⟩

theorem tanh_mem_Ioo (x : ℝ) : -1 < Real.tanh x ∧ Real.tanh x < 1 := by
  have hc := Real.cosh_pos x
  have h1 := Real.exp_pos x
  have h2 := Real.exp_pos (-x)
  rw [Real.tanh_eq_sinh_div_cosh]
  constructor
  · rw [lt_div_iff₀ hc, Real.sinh_eq, Real.cosh_eq]
    linarith
  · rw [div_lt_one hc, Real.sinh_eq, Real.cosh_eq]
    linarith

/-- Claim C8.  For every batch size `B ≥ 1`, the generator maps a `(B, 100)`
noise batch to a `(B, 784)` batch (the shapes are carried by the `Fin`
index types) in which every value lies strictly between -1 and 1: the last
layer is `Dense(784, activation=tanh)` after the three
`LeakyReLU(0.2)`-activated hidden layers of widths 256, 512, 1024. -/
theorem C8_generator_range (B : ℕ) (_hB : 1 ≤ B) (w : GenWeights)
    (noise : Fin B → Fin 100 → ℝ) (r : Fin B) (i : Fin 784) :
    -1 < generatorPredict B w noise r i ∧ generatorPredict B w noise r i < 1 := by
  simp only [generatorPredict, generatorForward]
  exact tanh_mem_Ioo _

/-- All-zero generator weights, used to instantiate C8. -/
noncomputable def zeroGenWeights : GenWeights :=
  { W1 := fun _ _ => 0, b1 := fun _ => 0
    W2 := fun _ _ => 0, b2 := fun _ => 0
    W3 := fun _ _ => 0, b3 := fun _ => 0
    W4 := fun _ _ => 0, b4 := fun _ => 0 }

/-- Claim C8, witness, at batch size 1 with zero weights and zero noise. -/
theorem C8_generator_witness :
    (1 : ℕ) ≤ 1 ∧
    (-1 < generatorPredict 1 zeroGenWeights (fun _ _ => 0) 0 0 ∧
      generatorPredict 1 zeroGenWeights (fun _ _ => 0) 0 0 < 1) :=
  ⟨le_refl 1, C8_generator_range 1 (le_refl 1) zeroGenWeights (fun _ _ => 0) 0 0⟩

end GanApp
